import Mathlib

/-!
Shallow embedding of the ICS-27 interchain-accounts host relay
(`modules/apps/27-interchain-accounts/host/keeper/relay.go`).

Ledger state is an abstract type `σ`; an sdk.Context is modelled as a store
of type `σ` together with its EventManager's event list.  External
collaborators (channel keeper, interchain-account registry, allow-message
parameters, message router, codecs, proto marshalling) are fields of the
`Keeper` structure, so every theorem quantifies over their behaviour.
Go slice indexing `xs[0]` on an empty slice panics; the `Outcome` type has an
explicit `panic` constructor for those paths.  Formatted error messages
produced via `sdkerrors.Wrapf` are modelled structurally: the registered sdk
error becomes an `ErrKind` and the format string with its arguments becomes an
`ErrText` constructor, so that two errors agree in Lean exactly when both the
registered error and the rendered message agree in Go.
-/

/-- Kind of a returned error: which registered sdk error it wraps
(`errors.Is` equivalence class / ABCI codespace+code).  Errors coming from
outside the shown source (codec failures, handler failures, proto marshal
failures) carry an `external` tag. -/
inductive ErrKind where
  | unknownDataType            -- icatypes.ErrUnknownDataType
  | channelNotFound            -- channeltypes.ErrChannelNotFound
  | interchainAccountNotFound  -- icatypes.ErrInterchainAccountNotFound
  | unauthorized               -- sdkerrors.ErrUnauthorized
  | invalidRoute               -- icatypes.ErrInvalidRoute
  | external (tag : String)
  deriving DecidableEq, Repr

/-- Rendered message of an error: the format string of the `Wrapf` call that
produced it, together with its arguments (kept structurally rather than as a
flattened string). -/
inductive ErrText where
  | plain
  | notAllowed (typeUrl : String)               -- "message type not allowed: %s"
  | unexpectedSigner (expected got : String)    -- "unexpected signer address: expected %s, got %s"
  | accountNotFound (portID : String)           -- "failed to retrieve interchain account on port %s"
  | wrapped (outer : String) (inner : ErrText)  -- sdkerrors.Wrap/Wrapf around an existing error
  | other (tag : String)
  deriving DecidableEq, Repr

/-- An error value: its registered kind plus its rendered message. -/
structure ErrObj where
  kind : ErrKind
  text : ErrText
  deriving DecidableEq, Repr

/-- Model of `sdkerrors.Wrap(err, msg)`: the registered kind is preserved and
the message is prefixed. -/
def wrapErr (e : ErrObj) (m : String) : ErrObj :=
  ⟨e.kind, ErrText.wrapped m e.text⟩

def errChannelNotFound : ErrObj := ⟨ErrKind.channelNotFound, ErrText.plain⟩

def errInvalidRoute : ErrObj := ⟨ErrKind.invalidRoute, ErrText.plain⟩

/-- Bare `icatypes.ErrUnknownDataType` as returned by the `default` branch of
`OnRecvPacket`'s type switch. -/
def errUnknownDataType : ErrObj := ⟨ErrKind.unknownDataType, ErrText.plain⟩

/-- Error returned by `OnRecvPacket` when `ModuleCdc.UnmarshalJSON` fails:
`sdkerrors.Wrapf(icatypes.ErrUnknownDataType, "cannot unmarshal ICS-27
interchain account packet data")`. -/
def errCannotUnmarshal : ErrObj :=
  ⟨ErrKind.unknownDataType,
   ErrText.wrapped "cannot unmarshal ICS-27 interchain account packet data" ErrText.plain⟩

/-- Outcome of running a Go function that can return a value, return an
error, or panic (index out of range). -/
inductive Outcome (α : Type) where
  | panic
  | err (e : ErrObj)
  | ok (a : α)
  deriving DecidableEq, Repr

/-- Events are abstract labels. -/
abbrev Event := String

/-- An sdk.Msg as the relay observes it: its type URL (`sdk.MsgTypeURL`), its
signer addresses in string form (`GetSigners`, each `.String()`), and the
result of its own structural validation (`ValidateBasic`; `none` means the
message validates). -/
structure Msg where
  typeUrl : String
  signers : List String
  ValidateBasic : Option ErrObj
  deriving DecidableEq, Repr

/-- Model of `sdk.MsgTypeURL`. -/
def MsgTypeURL (m : Msg) : String := m.typeUrl

/-- One entry of `sdk.TxMsgData.Data`. -/
structure MsgData where
  MsgType : String
  Data : List Nat
  deriving DecidableEq, Repr

/-- Model of `sdk.TxMsgData`. -/
structure TxMsgData where
  Data : List MsgData
  deriving DecidableEq, Repr

/-- The channel record as used by `executeTx` (only `ConnectionHops` is
read). -/
structure Channel where
  ConnectionHops : List String
  deriving DecidableEq, Repr

/-- An inbound packet as the relay reads it. -/
structure Packet where
  SourcePort : String
  DestinationPort : String
  DestinationChannel : String
  data : List Nat
  deriving DecidableEq, Repr

/-- Decoded envelope `icatypes.InterchainAccountPacketData`: a type tag (a
protobuf enum, an integer on the wire) and the serialized operation batch. -/
structure InterchainAccountPacketData where
  type : Int
  data : List Nat
  deriving DecidableEq, Repr

/-- The `icatypes.EXECUTE_TX` enum value. -/
def EXECUTE_TX : Int := 1

/-- An sdk.Context: the (multi)store plus the EventManager's emitted
events. -/
structure Ctx (σ : Type) where
  store : σ
  events : List Event
  deriving DecidableEq, Repr

/-- A message handler resolved from the router: runs against a store and
either fails or returns the updated store, the events of its `sdk.Result`,
and the result's `Data` bytes. -/
abbrev Handler (σ : Type) := σ → Except ErrObj (σ × List Event × List Nat)

/-- The host keeper together with its external collaborators.  Registry
lookups read ledger state, so they take the store as an argument. -/
structure Keeper (σ : Type) where
  GetChannel : σ → String → String → Option Channel
  GetInterchainAccountAddress : σ → String → String → Option String
  GetAllowMessages : σ → List String
  msgRouter : Msg → Option (Handler σ)
  ModuleCdcUnmarshalJSON : List Nat → Option InterchainAccountPacketData
  DeserializeCosmosTx : List Nat → Except ErrObj (List Msg)
  protoMarshal : TxMsgData → Except ErrObj (List Nat)

/-- Modelled from the spec: `types.ContainsMsgType` lives in the host `types`
package, which is not among the shown source files.  Per the spec's data
model, an Allow-List is "an ordered sequence of permitted operation-type
identifiers (or a single wildcard entry meaning all types permitted)", and the
authenticator's type check passes when the list is the wildcard or contains
the operation's type identifier. -/
def ContainsMsgType (allowMsgs : List String) (msg : Msg) : Bool :=
  if allowMsgs = ["*"] then true
  else allowMsgs.contains (MsgTypeURL msg)

/-- The inner signer loop of `authenticateTx`: the first signer whose string
form differs from the interchain-account address, if any. -/
def firstForeignSigner (interchainAccountAddr : String) : List String → Option String
  | [] => none
  | signer :: rest =>
    if interchainAccountAddr ≠ signer then some signer
    else firstForeignSigner interchainAccountAddr rest

/-- The `for _, msg := range msgs` loop of `authenticateTx`: allow-list type
check first, then the signer loop, short-circuiting on the first failure. -/
def authLoop (interchainAccountAddr : String) (allowMsgs : List String) :
    List Msg → Outcome Unit
  | [] => Outcome.ok ()
  | msg :: rest =>
    if !ContainsMsgType allowMsgs msg then
      Outcome.err ⟨ErrKind.unauthorized, ErrText.notAllowed (MsgTypeURL msg)⟩
    else
      match firstForeignSigner interchainAccountAddr msg.signers with
      | some signer =>
        Outcome.err ⟨ErrKind.unauthorized,
          ErrText.unexpectedSigner interchainAccountAddr signer⟩
      | none => authLoop interchainAccountAddr allowMsgs rest

/-- Model of `Keeper.authenticateTx`.  After resolving the interchain-account
address it logs `allowMsgs[0]`, which panics on an empty allow-list. -/
def authenticateTx (k : Keeper σ) (ctx : Ctx σ) (msgs : List Msg)
    (connectionID portID : String) : Outcome Unit :=
  match k.GetInterchainAccountAddress ctx.store connectionID portID with
  | none =>
    Outcome.err ⟨ErrKind.interchainAccountNotFound, ErrText.accountNotFound portID⟩
  | some interchainAccountAddr =>
    match (k.GetAllowMessages ctx.store).head? with
    | none => Outcome.panic  -- logger.LogInfo("first allowed message is:", allowMsgs[0])
    | some _ => authLoop interchainAccountAddr (k.GetAllowMessages ctx.store) msgs

/-- Model of `Keeper.executeMsg`: resolve the handler from the router, invoke
it, propagate its events into the given context's EventManager on success. -/
def executeMsg (k : Keeper σ) (ctx : Ctx σ) (msg : Msg) :
    Outcome (List Nat) × Ctx σ :=
  match k.msgRouter msg with
  | none => (Outcome.err errInvalidRoute, ctx)
  | some handler =>
    match handler ctx.store with
    | Except.error e => (Outcome.err e, ctx)
    | Except.ok (store', events, resData) =>
      (Outcome.ok resData, ⟨store', ctx.events ++ events⟩)

/-- The `for i, msg := range msgs` loop of `executeTx`, run against the
cached context: `ValidateBasic`, then `executeMsg`, recording each
`MsgData`; the first failure aborts with that operation's error. -/
def execMsgs (k : Keeper σ) : List Msg → Ctx σ → List MsgData →
    Outcome (List MsgData) × Ctx σ
  | [], cacheCtx, acc => (Outcome.ok acc, cacheCtx)
  | msg :: rest, cacheCtx, acc =>
    match msg.ValidateBasic with
    | some e => (Outcome.err e, cacheCtx)
    | none =>
      match executeMsg k cacheCtx msg with
      | (Outcome.panic, c') => (Outcome.panic, c')
      | (Outcome.err e, c') => (Outcome.err e, c')
      | (Outcome.ok resData, c') =>
        execMsgs k rest c' (acc ++ [⟨MsgTypeURL msg, resData⟩])

/-- Model of `Keeper.executeTx`.  Channel lookup, then authentication, then a
cached context (branched store, fresh EventManager) in which the messages run;
only when every message succeeds are the cache's events emitted into the
ambient context and the cache written back; finally the `TxMsgData` is proto
marshalled.  `channel.ConnectionHops[0]` panics on empty hops.  The returned
context is the ambient context after the call. -/
def executeTx (k : Keeper σ) (ctx : Ctx σ)
    (sourcePort destPort destChannel : String) (msgs : List Msg) :
    Outcome (List Nat) × Ctx σ :=
  match k.GetChannel ctx.store destPort destChannel with
  | none => (Outcome.err errChannelNotFound, ctx)
  | some channel =>
    match channel.ConnectionHops.head? with
    | none => (Outcome.panic, ctx)  -- channel.ConnectionHops[0]
    | some hop0 =>
      match authenticateTx k ctx msgs hop0 sourcePort with
      | Outcome.panic => (Outcome.panic, ctx)
      | Outcome.err e => (Outcome.err e, ctx)
      | Outcome.ok _ =>
        match execMsgs k msgs ⟨ctx.store, []⟩ [] with
        | (Outcome.panic, _) => (Outcome.panic, ctx)
        | (Outcome.err e, _) => (Outcome.err e, ctx)
        | (Outcome.ok msgDataList, cacheCtx) =>
          let committed : Ctx σ := ⟨cacheCtx.store, ctx.events ++ cacheCtx.events⟩
          match k.protoMarshal ⟨msgDataList⟩ with
          | Except.error e =>
            (Outcome.err (wrapErr e "failed to marshal tx data"), committed)
          | Except.ok bz => (Outcome.ok bz, committed)

/-- Model of `Keeper.OnRecvPacket`.  Envelope decode, then — for logging,
before the type switch — a deserialization of the operation batch and a read
of `msgs[0]` (which panics on an empty batch); then the switch on the
envelope type, whose `EXECUTE_TX` case deserializes again and calls
`executeTx`. -/
def OnRecvPacket (k : Keeper σ) (ctx : Ctx σ) (packet : Packet) :
    Outcome (List Nat) × Ctx σ :=
  match k.ModuleCdcUnmarshalJSON packet.data with
  | none => (Outcome.err errCannotUnmarshal, ctx)
  | some data =>
    match k.DeserializeCosmosTx data.data with
    | Except.error e => (Outcome.err e, ctx)
    | Except.ok msgs =>
      match msgs.head? with
      | none => (Outcome.panic, ctx)  -- msg0 := msgs[0]
      | some _ =>
        if data.type = EXECUTE_TX then
          match k.DeserializeCosmosTx data.data with
          | Except.error e => (Outcome.err e, ctx)
          | Except.ok msgs2 =>
            executeTx k ctx packet.SourcePort packet.DestinationPort
              packet.DestinationChannel msgs2
        else (Outcome.err errUnknownDataType, ctx)

/-- Specification-side per-operation authorization check (follows §4.2 of the
spec): the allow-list type check applied before the signer check, returning
the error the first failing check reports, or `none` when the operation
passes both. -/
def msgAuthError (interchainAccountAddr : String) (allowMsgs : List String)
    (msg : Msg) : Option ErrObj :=
  if !ContainsMsgType allowMsgs msg then
    some ⟨ErrKind.unauthorized, ErrText.notAllowed (MsgTypeURL msg)⟩
  else
    match firstForeignSigner interchainAccountAddr msg.signers with
    | some signer =>
      some ⟨ErrKind.unauthorized,
        ErrText.unexpectedSigner interchainAccountAddr signer⟩
    | none => none

/-! Concrete sample objects, used by witnesses and counterexamples. -/

/-- A message of an ordinary bank-send type, signed by the sample
interchain-account address, passing its structural validation. -/
def sampleMsg : Msg :=
  ⟨"/cosmos.bank.v1beta1.MsgSend", ["cosmos1icahostaddress"], none⟩

/-- A handler that bumps the store, emits one event and returns one byte of
result data. -/
def sampleHandler : Handler Nat :=
  fun store => Except.ok (store + 1, ["coin-spent"], [42])

/-- A benign keeper over `σ := Nat`: channel present, account resolvable,
wildcard allow-list, every message routed to `sampleHandler`, codecs and
marshalling succeeding. -/
def baseKeeper : Keeper Nat where
  GetChannel := fun _ _ _ => some ⟨["connection-0"]⟩
  GetInterchainAccountAddress := fun _ _ _ => some "cosmos1icahostaddress"
  GetAllowMessages := fun _ => ["*"]
  msgRouter := fun _ => some sampleHandler
  ModuleCdcUnmarshalJSON := fun _ => some ⟨EXECUTE_TX, [1]⟩
  DeserializeCosmosTx := fun _ => Except.ok [sampleMsg]
  protoMarshal := fun _ => Except.ok [9]

def keeperNoChannel : Keeper Nat :=
  { baseKeeper with GetChannel := fun _ _ _ => none }

def keeperNoAccount : Keeper Nat :=
  { baseKeeper with GetInterchainAccountAddress := fun _ _ _ => none }

def keeperEmptyBatch : Keeper Nat :=
  { baseKeeper with DeserializeCosmosTx := fun _ => Except.ok [] }

def keeperEmptyAllowList : Keeper Nat :=
  { baseKeeper with GetAllowMessages := fun _ => [] }

/-- C6: when the (destination port, destination channel) pair resolves to no
channel, `executeTx` fails with `ChannelNotFoundError` and returns the
ambient context unchanged; the conclusion holds for every keeper whose
channel lookup fails, whatever its registry, allow-list and router do, so the
authenticator is never consulted and no speculative state view is opened. -/
theorem executeTx_channelNotFound (σ : Type) (k : Keeper σ) (ctx : Ctx σ)
    (sourcePort destPort destChannel : String) (msgs : List Msg)
    (h : k.GetChannel ctx.store destPort destChannel = none) :
    executeTx k ctx sourcePort destPort destChannel msgs =
      (Outcome.err errChannelNotFound, ctx) := by
  simp [executeTx, h]

/-- Witness for C6 at a concrete keeper whose channel lookup fails. -/
theorem executeTx_channelNotFound_witness :
    executeTx keeperNoChannel ⟨0, []⟩ "icacontroller-x" "icahost" "channel-9"
        [sampleMsg] = (Outcome.err errChannelNotFound, ⟨0, []⟩) :=
  executeTx_channelNotFound Nat keeperNoChannel ⟨0, []⟩ "icacontroller-x"
    "icahost" "channel-9" [sampleMsg] rfl

/-- C7: when authentication fails, `executeTx` returns exactly the
authenticator's error and the ambient context unchanged (no state mutation,
no event); the conclusion holds for every keeper with that authentication
behaviour, whatever its router and handlers do, so no cached context is ever
opened. -/
theorem executeTx_authFailure_frame (σ : Type) (k : Keeper σ) (ctx : Ctx σ)
    (sourcePort destPort destChannel : String) (msgs : List Msg)
    (channel : Channel) (hop0 : String) (e : ErrObj)
    (hch : k.GetChannel ctx.store destPort destChannel = some channel)
    (hhop : channel.ConnectionHops.head? = some hop0)
    (hauth : authenticateTx k ctx msgs hop0 sourcePort = Outcome.err e) :
    executeTx k ctx sourcePort destPort destChannel msgs =
      (Outcome.err e, ctx) := by
  simp [executeTx, hch, hhop, hauth]

/-- Witness for C7: a keeper whose interchain-account lookup fails, so
authentication fails with `AccountNotFoundError` and `executeTx` propagates
it with the ambient context unchanged. -/
theorem executeTx_authFailure_frame_witness :
    executeTx keeperNoAccount ⟨0, []⟩ "icacontroller-x" "icahost" "channel-0"
        [sampleMsg] =
      (Outcome.err ⟨ErrKind.interchainAccountNotFound,
        ErrText.accountNotFound "icacontroller-x"⟩, ⟨0, []⟩) :=
  executeTx_authFailure_frame Nat keeperNoAccount ⟨0, []⟩ "icacontroller-x"
    "icahost" "channel-0" [sampleMsg] ⟨["connection-0"]⟩ "connection-0" _
    rfl rfl rfl

/-- C9: when the packet's payload deserializes to an empty operation batch,
`OnRecvPacket` reads `msgs[0]` and panics, whatever the envelope's type tag
is — the read happens before the switch on the type. -/
theorem OnRecvPacket_emptyBatch_panics (σ : Type) (k : Keeper σ) (ctx : Ctx σ)
    (packet : Packet) (data : InterchainAccountPacketData)
    (hdec : k.ModuleCdcUnmarshalJSON packet.data = some data)
    (hdeser : k.DeserializeCosmosTx data.data = Except.ok []) :
    OnRecvPacket k ctx packet = (Outcome.panic, ctx) := by
  simp [OnRecvPacket, hdec, hdeser]

/-- Witness for C9 at a concrete keeper whose codec yields an empty batch. -/
theorem OnRecvPacket_emptyBatch_panics_witness :
    OnRecvPacket keeperEmptyBatch ⟨0, []⟩
        ⟨"icacontroller-x", "icahost", "channel-0", [3]⟩ =
      (Outcome.panic, ⟨0, []⟩) :=
  OnRecvPacket_emptyBatch_panics Nat keeperEmptyBatch ⟨0, []⟩
    ⟨"icacontroller-x", "icahost", "channel-0", [3]⟩ ⟨EXECUTE_TX, [1]⟩ rfl rfl

/-- C10: when the host's allow-list is empty, `authenticateTx` reads
`allowMsgs[0]` and panics, for every message batch — after the
interchain-account address resolves and before any authorization decision. -/
theorem authenticateTx_emptyAllowList_panics (σ : Type) (k : Keeper σ)
    (ctx : Ctx σ) (msgs : List Msg) (connectionID portID addr : String)
    (hacct : k.GetInterchainAccountAddress ctx.store connectionID portID =
      some addr)
    (hallow : k.GetAllowMessages ctx.store = []) :
    authenticateTx k ctx msgs connectionID portID = Outcome.panic := by
  simp [authenticateTx, hacct, hallow]

/-- Witness for C10 at a concrete keeper with an empty allow-list. -/
theorem authenticateTx_emptyAllowList_panics_witness :
    authenticateTx keeperEmptyAllowList ⟨0, []⟩ [sampleMsg] "connection-0"
        "icacontroller-x" = Outcome.panic :=
  authenticateTx_emptyAllowList_panics Nat keeperEmptyAllowList ⟨0, []⟩
    [sampleMsg] "connection-0" "icacontroller-x" "cosmos1icahostaddress"
    rfl rfl

/-- Running the message loop on an appended batch first runs the prefix; when
the prefix succeeds the loop continues on the suffix from the prefix's cached
context and accumulated results. -/
theorem execMsgs_append (σ : Type) (k : Keeper σ) (xs ys : List Msg)
    (c c' : Ctx σ) (acc acc' : List MsgData)
    (h : execMsgs k xs c acc = (Outcome.ok acc', c')) :
    execMsgs k (xs ++ ys) c acc = execMsgs k ys c' acc' := by
  induction xs generalizing c acc with
  | nil =>
    simp only [execMsgs, Prod.mk.injEq, Outcome.ok.injEq] at h
    obtain ⟨rfl, rfl⟩ := h
    simp
  | cons x xs ih =>
    simp only [List.cons_append, execMsgs] at h ⊢
    split at h
    next e hv =>
      exact absurd h (by simp)
    next hv =>
      split at h
      next c2 hexec =>
        exact absurd h (by simp)
      next e c2 hexec =>
        exact absurd h (by simp)
      next d c2 hexec =>
        exact ih c2 (acc ++ [⟨MsgTypeURL x, d⟩]) h

/-- One step of the authentication loop is decided by the per-operation
check `msgAuthError`. -/
theorem authLoop_cons (interchainAccountAddr : String) (allowMsgs : List String)
    (msg : Msg) (rest : List Msg) :
    authLoop interchainAccountAddr allowMsgs (msg :: rest) =
      match msgAuthError interchainAccountAddr allowMsgs msg with
      | some e => Outcome.err e
      | none => authLoop interchainAccountAddr allowMsgs rest := by
  simp only [authLoop, msgAuthError]
  cases hc : ContainsMsgType allowMsgs msg with
  | false => simp
  | true =>
    simp only [Bool.not_true, Bool.false_eq_true, if_false]
    cases hs : firstForeignSigner interchainAccountAddr msg.signers <;> simp

/-- Operations that pass both checks are skipped by the authentication
loop. -/
theorem authLoop_pass_append (interchainAccountAddr : String)
    (allowMsgs : List String) (pre rest : List Msg)
    (hpre : ∀ m ∈ pre, msgAuthError interchainAccountAddr allowMsgs m = none) :
    authLoop interchainAccountAddr allowMsgs (pre ++ rest) =
      authLoop interchainAccountAddr allowMsgs rest := by
  induction pre with
  | nil => simp
  | cons x xs ih =>
    rw [List.cons_append, authLoop_cons, hpre x (by simp)]
    exact ih (fun m hm => hpre m (by simp [hm]))

/-- A message whose own structural validation fails. -/
def invalidMsg : Msg :=
  ⟨"/cosmos.bank.v1beta1.MsgSend", ["cosmos1icahostaddress"],
   some ⟨ErrKind.external "sdk", ErrText.other "invalid coins"⟩⟩

/-- A staking message, used as an operation of a type outside a bank-only
allow-list. -/
def stakingMsg : Msg :=
  ⟨"/cosmos.staking.v1beta1.MsgDelegate", ["cosmos1icahostaddress"], none⟩

/-- A message of an allowed type but signed by an address other than the
interchain account. -/
def mismatchedMsg : Msg :=
  ⟨"/cosmos.bank.v1beta1.MsgSend", ["cosmos1evilimposter"], none⟩

def keeperBankAllowList : Keeper Nat :=
  { baseKeeper with GetAllowMessages := fun _ => ["/cosmos.bank.v1beta1.MsgSend"] }

/-- C1: when some operation of the batch fails — its `ValidateBasic` or its
execution via `executeMsg` against the cached context reached after the
operations before it — `executeTx` returns that operation's error and the
ambient context (store and event stream) unchanged: no state change and no
event from any operation of the batch is kept. -/
theorem executeTx_atomic_on_failure (σ : Type) (k : Keeper σ) (ctx : Ctx σ)
    (sourcePort destPort destChannel : String) (channel : Channel)
    (hop0 : String) (pre post : List Msg) (m : Msg) (acc : List MsgData)
    (cache : Ctx σ) (e : ErrObj)
    (hch : k.GetChannel ctx.store destPort destChannel = some channel)
    (hhop : channel.ConnectionHops.head? = some hop0)
    (hauth : authenticateTx k ctx (pre ++ m :: post) hop0 sourcePort =
      Outcome.ok ())
    (hpre : execMsgs k pre ⟨ctx.store, []⟩ [] = (Outcome.ok acc, cache))
    (hfail : m.ValidateBasic = some e ∨
      (m.ValidateBasic = none ∧ (executeMsg k cache m).1 = Outcome.err e)) :
    executeTx k ctx sourcePort destPort destChannel (pre ++ m :: post) =
      (Outcome.err e, ctx) := by
  have hstep : execMsgs k (pre ++ m :: post) ⟨ctx.store, []⟩ [] =
      execMsgs k (m :: post) cache acc :=
    execMsgs_append σ k pre (m :: post) ⟨ctx.store, []⟩ cache [] acc hpre
  have hrun : ∃ c2, execMsgs k (m :: post) cache acc = (Outcome.err e, c2) := by
    rcases hfail with hv | ⟨hv, hexec⟩
    · exact ⟨cache, by simp [execMsgs, hv]⟩
    · rcases he2 : executeMsg k cache m with ⟨r, c2⟩
      rw [he2] at hexec
      simp at hexec
      subst hexec
      exact ⟨c2, by simp [execMsgs, hv, he2]⟩
  obtain ⟨c2, hc2⟩ := hrun
  rw [hc2] at hstep
  simp [executeTx, hch, hhop, hauth, hstep]

/-- Witness for C1: a two-operation batch whose first operation succeeds and
mutates the cached store and emits an event, and whose second operation fails
`ValidateBasic`; `executeTx` returns the second operation's error and the
ambient context stays `⟨0, []⟩`. -/
theorem executeTx_atomic_on_failure_witness :
    executeTx baseKeeper ⟨0, []⟩ "icacontroller-x" "icahost" "channel-0"
        [sampleMsg, invalidMsg] =
      (Outcome.err ⟨ErrKind.external "sdk", ErrText.other "invalid coins"⟩,
       ⟨0, []⟩) :=
  executeTx_atomic_on_failure Nat baseKeeper ⟨0, []⟩ "icacontroller-x"
    "icahost" "channel-0" ⟨["connection-0"]⟩ "connection-0" [sampleMsg] []
    invalidMsg [⟨"/cosmos.bank.v1beta1.MsgSend", [42]⟩] ⟨1, ["coin-spent"]⟩
    ⟨ErrKind.external "sdk", ErrText.other "invalid coins"⟩
    rfl rfl rfl rfl (Or.inl rfl)

/-- C2 counterexample: with an empty configured allow-list, operation 0 of a
one-operation batch is the first operation of a disallowed type (the
per-operation check reports the disallowed-type UnauthorizedError for it),
yet `authenticateTx` panics on `allowMsgs[0]` instead of returning any
error. -/
theorem authenticateTx_short_circuit_counterexample :
    authenticateTx keeperEmptyAllowList ⟨0, []⟩ [sampleMsg] "connection-0"
        "icacontroller-x" = Outcome.panic ∧
    msgAuthError "cosmos1icahostaddress" [] sampleMsg =
      some ⟨ErrKind.unauthorized, ErrText.notAllowed (MsgTypeURL sampleMsg)⟩ ∧
    ∀ e : ErrObj, (Outcome.panic : Outcome Unit) ≠ Outcome.err e :=
  ⟨rfl, rfl, fun _ h => Outcome.noConfusion h⟩

/-- C2 (amended with a non-empty allow-list): when operation `m` is the first
operation failing the per-operation check — allow-list type check first, then
the signer check, as `msgAuthError` applies them — `authenticateTx` returns
exactly that operation's UnauthorizedError, whatever the operations after it
are. -/
theorem authenticateTx_short_circuit (σ : Type) (k : Keeper σ) (ctx : Ctx σ)
    (connectionID portID addr : String) (pre post : List Msg) (m : Msg)
    (e : ErrObj)
    (hacct : k.GetInterchainAccountAddress ctx.store connectionID portID =
      some addr)
    (hne : k.GetAllowMessages ctx.store ≠ [])
    (hpre : ∀ m' ∈ pre,
      msgAuthError addr (k.GetAllowMessages ctx.store) m' = none)
    (hm : msgAuthError addr (k.GetAllowMessages ctx.store) m = some e) :
    authenticateTx k ctx (pre ++ m :: post) connectionID portID =
      Outcome.err e := by
  obtain ⟨a, as, hl⟩ := List.exists_cons_of_ne_nil hne
  rw [hl] at hpre hm
  unfold authenticateTx
  rw [hacct, hl]
  simp only [List.head?]
  rw [authLoop_pass_append addr (a :: as) pre (m :: post) hpre,
    authLoop_cons, hm]

/-- Witness for C2's amended theorem: under a bank-only allow-list, the batch
[allowed-and-well-signed, staking (disallowed type), mis-signed] is rejected
with the disallowed-type error of the second operation, although the third
operation is itself mis-signed. -/
theorem authenticateTx_short_circuit_witness :
    authenticateTx keeperBankAllowList ⟨0, []⟩
        [sampleMsg, stakingMsg, mismatchedMsg] "connection-0"
        "icacontroller-x" =
      Outcome.err ⟨ErrKind.unauthorized,
        ErrText.notAllowed "/cosmos.staking.v1beta1.MsgDelegate"⟩ :=
  authenticateTx_short_circuit Nat keeperBankAllowList ⟨0, []⟩ "connection-0"
    "icacontroller-x" "cosmos1icahostaddress" [sampleMsg] [mismatchedMsg]
    stakingMsg
    ⟨ErrKind.unauthorized,
      ErrText.notAllowed "/cosmos.staking.v1beta1.MsgDelegate"⟩
    rfl (by decide) (by decide) (by decide)

/-- The authentication loop under the wildcard allow-list never produces the
disallowed-type UnauthorizedError. -/
theorem wildcard_authLoop_no_typeErr (interchainAccountAddr : String)
    (msgs : List Msg) (u : String) :
    authLoop interchainAccountAddr ["*"] msgs ≠
      Outcome.err ⟨ErrKind.unauthorized, ErrText.notAllowed u⟩ := by
  induction msgs with
  | nil => simp [authLoop]
  | cons m rest ih =>
    have hc : ContainsMsgType ["*"] m = true := by simp [ContainsMsgType]
    simp only [authLoop, hc, Bool.not_true, Bool.false_eq_true, if_false]
    cases hs : firstForeignSigner interchainAccountAddr m.signers with
    | some s => simp
    | none => exact ih

/-- C3: the allow-list type check accepts every operation under the wildcard
allow-list `["*"]`, and with that configured allow-list `authenticateTx`
never fails with the disallowed-type UnauthorizedError, whatever the
operations' types are. -/
theorem wildcard_allowlist_accepts (σ : Type) (k : Keeper σ) (ctx : Ctx σ)
    (msgs : List Msg) (connectionID portID : String) (m : Msg) :
    ContainsMsgType ["*"] m = true ∧
    (k.GetAllowMessages ctx.store = ["*"] →
      ∀ u : String,
        authenticateTx k ctx msgs connectionID portID ≠
          Outcome.err ⟨ErrKind.unauthorized, ErrText.notAllowed u⟩) := by
  constructor
  · simp [ContainsMsgType]
  · intro hallow u
    unfold authenticateTx
    cases hacct : k.GetInterchainAccountAddress ctx.store connectionID portID with
    | none => simp
    | some addr =>
      rw [hallow]
      simp only [List.head?]
      exact wildcard_authLoop_no_typeErr addr msgs u

/-- Witness for C3: a staking operation under the wildcard allow-list passes
the type check, and authentication of a batch holding it does not fail with
the disallowed-type error. -/
theorem wildcard_allowlist_accepts_witness :
    ContainsMsgType ["*"] stakingMsg = true ∧
    authenticateTx baseKeeper ⟨0, []⟩ [stakingMsg] "connection-0"
        "icacontroller-x" ≠
      Outcome.err ⟨ErrKind.unauthorized,
        ErrText.notAllowed "/cosmos.staking.v1beta1.MsgDelegate"⟩ :=
  ⟨(wildcard_allowlist_accepts Nat baseKeeper ⟨0, []⟩ [stakingMsg]
      "connection-0" "icacontroller-x" stakingMsg).1,
   (wildcard_allowlist_accepts Nat baseKeeper ⟨0, []⟩ [stakingMsg]
      "connection-0" "icacontroller-x" stakingMsg).2 rfl
     "/cosmos.staking.v1beta1.MsgDelegate"⟩

def keeperUnknownTypeBadBatch : Keeper Nat :=
  { baseKeeper with
    ModuleCdcUnmarshalJSON := fun _ => some ⟨0, [7]⟩,
    DeserializeCosmosTx := fun _ =>
      Except.error ⟨ErrKind.external "proto", ErrText.other "invalid bytes"⟩ }

def keeperUnknownTypeGoodBatch : Keeper Nat :=
  { baseKeeper with ModuleCdcUnmarshalJSON := fun _ => some ⟨0, [7]⟩ }

def keeperBadEnvelope : Keeper Nat :=
  { baseKeeper with ModuleCdcUnmarshalJSON := fun _ => none }

/-- C4 counterexample: a packet whose envelope decodes with type tag 0 (not
the "execute" variant) and whose operation-batch payload is malformed;
`OnRecvPacket` deserializes the batch before branching on the type and
returns the deserialization error, not `UnsupportedTypeError`
(`ErrUnknownDataType`). -/
theorem OnRecvPacket_unknownType_counterexample :
    OnRecvPacket keeperUnknownTypeBadBatch ⟨0, []⟩
        ⟨"icacontroller-x", "icahost", "channel-0", [5]⟩ =
      (Outcome.err ⟨ErrKind.external "proto", ErrText.other "invalid bytes"⟩,
       ⟨0, []⟩) ∧
    (0 : Int) ≠ EXECUTE_TX ∧
    ErrObj.mk (ErrKind.external "proto") (ErrText.other "invalid bytes") ≠
      errUnknownDataType :=
  ⟨rfl, by decide, by decide⟩

/-- C4 (amended): for a packet whose envelope carries a type tag other than
"execute", `OnRecvPacket` attempts the operation-batch deserialization before
branching on the tag: a deserialization failure is returned as that error,
and only when the batch deserializes to a non-empty sequence does the call
fail with `UnsupportedTypeError`; the ambient context is unchanged either
way. -/
theorem OnRecvPacket_unknownType_behavior (σ : Type) (k : Keeper σ)
    (ctx : Ctx σ) (packet : Packet) (data : InterchainAccountPacketData)
    (hdec : k.ModuleCdcUnmarshalJSON packet.data = some data)
    (htype : data.type ≠ EXECUTE_TX) :
    (∀ e, k.DeserializeCosmosTx data.data = Except.error e →
      OnRecvPacket k ctx packet = (Outcome.err e, ctx)) ∧
    (∀ m msgs, k.DeserializeCosmosTx data.data = Except.ok (m :: msgs) →
      OnRecvPacket k ctx packet = (Outcome.err errUnknownDataType, ctx)) := by
  constructor
  · intro e hdeser
    simp [OnRecvPacket, hdec, hdeser]
  · intro m msgs hdeser
    simp [OnRecvPacket, hdec, hdeser, htype]

/-- Witness for C4's amended theorem: with a well-formed non-empty batch and
type tag 0 the call fails with the bare `ErrUnknownDataType`. -/
theorem OnRecvPacket_unknownType_behavior_witness :
    OnRecvPacket keeperUnknownTypeGoodBatch ⟨0, []⟩
        ⟨"icacontroller-x", "icahost", "channel-0", [5]⟩ =
      (Outcome.err errUnknownDataType, ⟨0, []⟩) :=
  (OnRecvPacket_unknownType_behavior Nat keeperUnknownTypeGoodBatch ⟨0, []⟩
      ⟨"icacontroller-x", "icahost", "channel-0", [5]⟩ ⟨0, [7]⟩ rfl
      (by decide)).2 sampleMsg [] rfl

/-- C5 counterexample: a packet with a malformed envelope and a packet with
an unrecognized envelope type tag produce errors of the same registered kind
(`ErrUnknownDataType`); the claimed distinctness of the two failure kinds
fails at these concrete inputs. -/
theorem OnRecvPacket_errorKind_counterexample :
    OnRecvPacket keeperBadEnvelope ⟨0, []⟩
        ⟨"icacontroller-x", "icahost", "channel-0", [5]⟩ =
      (Outcome.err errCannotUnmarshal, ⟨0, []⟩) ∧
    OnRecvPacket keeperUnknownTypeGoodBatch ⟨0, []⟩
        ⟨"icacontroller-x", "icahost", "channel-0", [5]⟩ =
      (Outcome.err errUnknownDataType, ⟨0, []⟩) ∧
    errCannotUnmarshal.kind = errUnknownDataType.kind :=
  ⟨rfl, rfl, rfl⟩

/-- C5 (amended): a malformed envelope makes `OnRecvPacket` fail with
`ErrUnknownDataType` wrapped in the fixed unmarshal message, and an
unrecognized type tag (on a well-formed non-empty batch) makes it fail with
the bare `ErrUnknownDataType`: the two returned error values differ, but
their registered error kind is the same, so a caller can separate the two
failures only by the message text, not by the error kind. -/
theorem OnRecvPacket_decode_vs_unsupported (σ : Type) (k : Keeper σ)
    (ctx : Ctx σ) :
    (∀ packet : Packet, k.ModuleCdcUnmarshalJSON packet.data = none →
      OnRecvPacket k ctx packet = (Outcome.err errCannotUnmarshal, ctx)) ∧
    (∀ (packet : Packet) (data : InterchainAccountPacketData) (m : Msg)
       (msgs : List Msg),
      k.ModuleCdcUnmarshalJSON packet.data = some data →
      data.type ≠ EXECUTE_TX →
      k.DeserializeCosmosTx data.data = Except.ok (m :: msgs) →
      OnRecvPacket k ctx packet = (Outcome.err errUnknownDataType, ctx)) ∧
    errCannotUnmarshal.kind = errUnknownDataType.kind ∧
    errCannotUnmarshal ≠ errUnknownDataType := by
  refine ⟨?_, ?_, rfl, by decide⟩
  · intro packet hdec
    simp [OnRecvPacket, hdec]
  · intro packet data m msgs hdec htype hdeser
    simp [OnRecvPacket, hdec, hdeser, htype]

/-- Witness for C5's amended theorem at a concrete malformed envelope. -/
theorem OnRecvPacket_decode_vs_unsupported_witness :
    OnRecvPacket keeperBadEnvelope ⟨0, []⟩
        ⟨"icacontroller-x", "icahost", "channel-0", [5]⟩ =
      (Outcome.err errCannotUnmarshal, ⟨0, []⟩) :=
  (OnRecvPacket_decode_vs_unsupported Nat keeperBadEnvelope ⟨0, []⟩).1
    ⟨"icacontroller-x", "icahost", "channel-0", [5]⟩ rfl

def keeperBadMarshal : Keeper Nat :=
  { baseKeeper with
    protoMarshal := fun _ =>
      Except.error ⟨ErrKind.external "proto", ErrText.other "marshal fail"⟩ }

/-- C8: when every operation of the batch succeeds and only the result
serialization fails, `executeTx` returns the wrapped marshal error while the
cache's store and events have already been committed into the returned
ambient context; and on every other error path of `executeTx` the ambient
context is returned unchanged — the marshal failure is the only path where a
commit precedes a reported error. -/
theorem executeTx_marshalFailure_commit (σ : Type) (k : Keeper σ)
    (ctx : Ctx σ) (sourcePort destPort destChannel : String)
    (msgs : List Msg) :
    (∀ (channel : Channel) (hop0 : String) (acc : List MsgData)
       (cache : Ctx σ) (ext : ErrObj),
      k.GetChannel ctx.store destPort destChannel = some channel →
      channel.ConnectionHops.head? = some hop0 →
      authenticateTx k ctx msgs hop0 sourcePort = Outcome.ok () →
      execMsgs k msgs ⟨ctx.store, []⟩ [] = (Outcome.ok acc, cache) →
      k.protoMarshal ⟨acc⟩ = Except.error ext →
      executeTx k ctx sourcePort destPort destChannel msgs =
        (Outcome.err (wrapErr ext "failed to marshal tx data"),
         ⟨cache.store, ctx.events ++ cache.events⟩)) ∧
    (∀ (e : ErrObj) (ctx' : Ctx σ),
      executeTx k ctx sourcePort destPort destChannel msgs =
        (Outcome.err e, ctx') →
      ctx' = ctx ∨ ∃ ext, e = wrapErr ext "failed to marshal tx data") := by
  constructor
  · intro channel hop0 acc cache ext hch hhop hauth hexec hm
    simp [executeTx, hch, hhop, hauth, hexec, hm]
  · intro e ctx' h
    unfold executeTx at h
    split at h
    · simp only [Prod.mk.injEq, Outcome.err.injEq] at h
      exact Or.inl h.2.symm
    · split at h
      · exact absurd h (by simp)
      · split at h
        · exact absurd h (by simp)
        · simp only [Prod.mk.injEq, Outcome.err.injEq] at h
          exact Or.inl h.2.symm
        · split at h
          · exact absurd h (by simp)
          · simp only [Prod.mk.injEq, Outcome.err.injEq] at h
            exact Or.inl h.2.symm
          · split at h
            next ext hm =>
              simp only [Prod.mk.injEq, Outcome.err.injEq] at h
              exact Or.inr ⟨ext, h.1.symm⟩
            next bz hm =>
              exact absurd h (by simp)

/-- Witness for C8: a one-operation batch that succeeds (bumping the store
and emitting an event) followed by a failing proto marshal; the error is
returned with the committed context `⟨1, ["coin-spent"]⟩`, not the ambient
`⟨0, []⟩`. -/
theorem executeTx_marshalFailure_commit_witness :
    executeTx keeperBadMarshal ⟨0, []⟩ "icacontroller-x" "icahost"
        "channel-0" [sampleMsg] =
      (Outcome.err (wrapErr ⟨ErrKind.external "proto",
         ErrText.other "marshal fail"⟩ "failed to marshal tx data"),
       ⟨1, ["coin-spent"]⟩) :=
  (executeTx_marshalFailure_commit Nat keeperBadMarshal ⟨0, []⟩
      "icacontroller-x" "icahost" "channel-0" [sampleMsg]).1
    ⟨["connection-0"]⟩ "connection-0"
    [⟨"/cosmos.bank.v1beta1.MsgSend", [42]⟩] ⟨1, ["coin-spent"]⟩
    ⟨ErrKind.external "proto", ErrText.other "marshal fail"⟩
    rfl rfl rfl rfl rfl
